import Mathlib

/-! Verification development for the ApeWisdom API client in apewis.py.
The Python client is shallowly embedded: JSON values are an inductive type,
the HTTP layer is an environment assigning to each page number the list of
outcomes that successive request attempts for that page would produce (the
client consumes only the first, since it issues a single attempt per call),
Python exceptions become an error type inside Except, and the unbounded
while loop of get_all_mentions runs on explicit fuel (a result of none
means the loop did not finish within the given fuel). -/

namespace ApeWis

/-- JSON values as decoded by response.json(). Numbers are modelled as
integers, since the numeric fields of this API are counts. -/
inductive Json where
  | null : Json
  | b : Bool → Json
  | i : Int → Json
  | s : String → Json
  | arr : List Json → Json
  | obj : List (String × Json) → Json

/-- The StockMention dataclass of apewis.py. Python dataclasses do not
enforce the annotated field types at runtime, so rank, ticker and name hold
the raw JSON value taken from the row; mentions and upvotes are the
integers produced by `_safe_int_convert(...) or 0`, and the two twenty-four
hour fields are the Option results of `_safe_int_convert`. -/
structure StockMention where
  rank : Json
  ticker : Json
  name : Json
  mentions : Int
  upvotes : Int
  rank_24h_ago : Option Int
  mentions_24h_ago : Option Int

/-- Causes subsumed by requests.exceptions.RequestException: a non-2xx
status raised by raise_for_status, a transport-level failure (DNS,
connection, timeout), or a body that is not valid JSON. -/
inductive Cause where
  | httpStatus : Nat → Cause
  | transport : String → Cause
  | badJson : Cause

/-- Exceptions the client can raise: the generic
Exception("API request failed: ...") wrapper from get_mentions, and the
KeyError / TypeError crashes coming from dictionary subscripts, iteration
and comparisons in get_all_mentions. -/
inductive Err where
  | fetchFailed : Cause → Err
  | keyError : String → Err
  | typeError : String → Err

/-- Outcome of one HTTP attempt (requests.get + raise_for_status +
response.json()) for a page. -/
inductive FetchOutcome where
  | ok : Json → FetchOutcome
  | fail : Cause → FetchOutcome

/-- Lookup in a decoded JSON object, as Python dict indexing sees it:
json.loads keeps the value of the last occurrence of a duplicated key. -/
def objGet (kvs : List (String × Json)) (k : String) : Option Json :=
  kvs.foldl (fun acc p => if p.1 == k then some p.2 else acc) none

/-- Python `value[k]` with a string key: objects look the key up and raise
KeyError when it is missing; subscripting any other JSON value with a
string raises TypeError. -/
def pyGetItem (j : Json) (k : String) : Except Err Json :=
  match j with
  | Json.obj kvs =>
    match objGet kvs k with
    | some v => Except.ok v
    | none => Except.error (Err.keyError k)
  | _ => Except.error (Err.typeError k)

/-- Python iteration `for x in v`: lists yield their elements, strings
yield their characters as one-character strings, dicts yield their keys;
any other value raises TypeError. -/
def pyIter (j : Json) : Except Err (List Json) :=
  match j with
  | Json.arr xs => Except.ok xs
  | Json.s str => Except.ok (str.toList.map (fun ch => Json.s (String.mk [ch])))
  | Json.obj kvs => Except.ok (((kvs.map Prod.fst).eraseDups).map (fun k => Json.s k))
  | _ => Except.error (Err.typeError "not iterable")

/-- Whitespace characters stripped by Python int() on strings. -/
def isPySpace (ch : Char) : Bool :=
  ch == ' ' || ch == '\t' || ch == '\n' || ch == '\r'

/-- Strip leading and trailing whitespace from a character list. -/
def stripEnds (cs : List Char) : List Char :=
  ((cs.dropWhile isPySpace).reverse.dropWhile isPySpace).reverse

/-- Value of a nonempty all-digit character list, none otherwise. -/
def digitsToNat (cs : List Char) : Option Nat :=
  if cs.isEmpty then none
  else if cs.all (fun ch => ch.isDigit) then
    some (cs.foldl (fun a ch => a * 10 + (ch.toNat - 48)) 0)
  else none

/-- Python int() applied to a string: optional surrounding whitespace, an
optional sign, then a nonempty digit string (digit-group underscores and
non-ASCII digits are not modelled); anything else raises ValueError. -/
def pyStrToInt (str : String) : Option Int :=
  match stripEnds str.toList with
  | '-' :: rest => (digitsToNat rest).map (fun n => -(n : Int))
  | '+' :: rest => (digitsToNat rest).map (fun n => (n : Int))
  | cs => (digitsToNat cs).map (fun n => (n : Int))

/-- Python int(value) on a JSON value, with none modelling a raised
ValueError or TypeError: None and containers raise, booleans are the ints
0 and 1, numbers pass through, strings are parsed. -/
def pyInt : Json → Option Int
  | Json.null => none
  | Json.b true => some 1
  | Json.b false => some 0
  | Json.i n => some n
  | Json.s str => pyStrToInt str
  | Json.arr _ => none
  | Json.obj _ => none

/-- ApeWisdomAPI._safe_int_convert: None maps to None, otherwise int(value)
with ValueError and TypeError caught and turned into None. -/
def safeIntConvert : Json → Option Int
  | Json.null => none
  | v => pyInt v

/-- Python `x or 0` applied to the result of _safe_int_convert: None and 0
are falsy and give 0, any other integer is returned unchanged. -/
def orZero (o : Option Int) : Int :=
  match o with
  | none => 0
  | some n => if n == 0 then 0 else n

/-- Construction of one StockMention inside the list comprehension of
get_all_mentions. Keyword argument values are evaluated left to right, so
the first missing key (in the order rank, ticker, name, mentions, upvotes,
rank_24h_ago, mentions_24h_ago) determines the raised KeyError. -/
def normalizeRow (row : Json) : Except Err StockMention :=
  match pyGetItem row "rank" with
  | Except.error e => Except.error e
  | Except.ok vRank =>
    match pyGetItem row "ticker" with
    | Except.error e => Except.error e
    | Except.ok vTicker =>
      match pyGetItem row "name" with
      | Except.error e => Except.error e
      | Except.ok vName =>
        match pyGetItem row "mentions" with
        | Except.error e => Except.error e
        | Except.ok vMentions =>
          match pyGetItem row "upvotes" with
          | Except.error e => Except.error e
          | Except.ok vUpvotes =>
            match pyGetItem row "rank_24h_ago" with
            | Except.error e => Except.error e
            | Except.ok vRank24 =>
              match pyGetItem row "mentions_24h_ago" with
              | Except.error e => Except.error e
              | Except.ok vMentions24 =>
                Except.ok (StockMention.mk vRank vTicker vName
                  (orZero (safeIntConvert vMentions))
                  (orZero (safeIntConvert vUpvotes))
                  (safeIntConvert vRank24)
                  (safeIntConvert vMentions24))

/-- The list comprehension over the rows of one page: rows are converted
left to right and the first raised exception aborts the whole
comprehension. -/
def mapRows : List Json → Except Err (List StockMention)
  | [] => Except.ok []
  | r :: rest =>
    match normalizeRow r with
    | Except.error e => Except.error e
    | Except.ok m =>
      match mapRows rest with
      | Except.error e => Except.error e
      | Except.ok ms => Except.ok (m :: ms)

/-- Evaluation of the comprehension `[StockMention(...) for result in
data["results"]]`: look up "results", iterate it, convert each row. -/
def processPage (data : Json) : Except Err (List StockMention) :=
  match pyGetItem data "results" with
  | Except.error e => Except.error e
  | Except.ok v =>
    match pyIter v with
    | Except.error e => Except.error e
    | Except.ok rows => mapRows rows

/-- Translate one attempt outcome into what get_mentions does with it: a
decoded body is returned, every RequestException is caught and re-raised as
Exception("API request failed: ...") carrying the cause. -/
def attemptOutcome : FetchOutcome → Except Err Json
  | FetchOutcome.ok j => Except.ok j
  | FetchOutcome.fail c => Except.error (Err.fetchFailed c)

/-- ApeWisdomAPI.get_mentions for one page: a single requests.get attempt
is issued, so only the first outcome the environment holds for that page is
ever consumed — later entries are what retries would have seen. -/
def getMentions (env : Nat → List FetchOutcome) (page : Nat) : Except Err Json :=
  attemptOutcome ((env page).headD (FetchOutcome.fail (Cause.transport "no response")))

/-- Python `page >= data["pages"]` where page is an int: comparison against
an int or a bool (bools are the ints 0 and 1) succeeds, comparison against
any other JSON value raises TypeError. -/
def pyGeIntJson (n : Int) (j : Json) : Except Err Bool :=
  match j with
  | Json.i m => Except.ok (decide (m ≤ n))
  | Json.b true => Except.ok (decide ((1 : Int) ≤ n))
  | Json.b false => Except.ok (decide ((0 : Int) ≤ n))
  | _ => Except.error (Err.typeError "not supported between int and this value")

/-- The while loop of ApeWisdomAPI.get_all_mentions, on explicit fuel. Each
iteration calls get_mentions, converts the rows of the page, extends the
accumulator, then compares the current page index against the pages value
of the current response (the bound is looked up again on every page):
if page >= data["pages"] the loop breaks, otherwise page is incremented.
The second returned component counts the get_mentions calls made. -/
def getAllMentionsAux (env : Nat → List FetchOutcome) :
    Nat → Nat → List StockMention → Nat → Option (Except Err (List StockMention × Nat))
  | 0, _, _, _ => none
  | fuel + 1, page, acc, reqs =>
    match getMentions env page with
    | Except.error e => some (Except.error e)
    | Except.ok data =>
      match processPage data with
      | Except.error e => some (Except.error e)
      | Except.ok pageMentions =>
        match pyGetItem data "pages" with
        | Except.error e => some (Except.error e)
        | Except.ok pagesVal =>
          match pyGeIntJson (page : Int) pagesVal with
          | Except.error e => some (Except.error e)
          | Except.ok true => some (Except.ok (acc ++ pageMentions, reqs + 1))
          | Except.ok false => getAllMentionsAux env fuel (page + 1) (acc ++ pageMentions) (reqs + 1)

/-- ApeWisdomAPI.get_all_mentions: the sweep starts at page 1 with an empty
accumulator and no requests issued yet. -/
def getAllMentions (env : Nat → List FetchOutcome) (fuel : Nat) :
    Option (Except Err (List StockMention × Nat)) :=
  getAllMentionsAux env fuel 1 [] 0

/-- The mutable state of an ApeWisdomAPI instance: the configured rate
limit and the last-request-time marker. Wall-clock instants are rationals
(seconds since the epoch). -/
structure Client where
  rate_limit : Rat
  last_request_time : Rat

/-- ApeWisdomAPI.__init__: the marker starts at epoch 0. -/
def initClient (r : Rat) : Client :=
  Client.mk r 0

/-- Duration of the time.sleep performed by _rate_limit_wait when entered
at wall-clock instant now: the remainder of the rate limit not yet elapsed
since the marker, and nothing otherwise. -/
def sleepDuration (c : Client) (now : Rat) : Rat :=
  if now - c.last_request_time < c.rate_limit then c.rate_limit - (now - c.last_request_time)
  else 0

/-- Final assignment of _rate_limit_wait: the marker is set to the
time.time() reading taken after the conditional sleep, i.e. just before
the HTTP request of the call is issued. -/
def rateLimitWait (c : Client) (tAfterSleep : Rat) : Client :=
  Client.mk c.rate_limit tAfterSleep

/-- The pages value a response carries, as the int the loop comparison
sees: ints pass through, bools compare as 0 and 1, everything else has no
comparable bound. -/
def pagesBoundVal : Json → Option Int
  | Json.i p => some p
  | Json.b true => some 1
  | Json.b false => some 0
  | _ => none

/-- Comparable pages bound reported by the response for a page, when the
fetch succeeds and the response carries one. -/
def pagesBound (env : Nat → List FetchOutcome) (i : Nat) : Option Int :=
  match getMentions env i with
  | Except.error _ => none
  | Except.ok data =>
    match pyGetItem data "pages" with
    | Except.error _ => none
    | Except.ok v => pagesBoundVal v

/-- Normalized rows of one page, when fetching and converting it succeeds. -/
def pageRows (env : Nat → List FetchOutcome) (i : Nat) : Option (List StockMention) :=
  match getMentions env i with
  | Except.error _ => none
  | Except.ok data =>
    match processPage data with
    | Except.error _ => none
    | Except.ok ms => some ms

/-- Raw results list of one page, when the fetch succeeds and the response
carries an iterable "results" entry. -/
def pageResults (env : Nat → List FetchOutcome) (i : Nat) : Option (List Json) :=
  match getMentions env i with
  | Except.error _ => none
  | Except.ok data =>
    match pyGetItem data "results" with
    | Except.error _ => none
    | Except.ok v =>
      match pyIter v with
      | Except.error _ => none
      | Except.ok rows => some rows

/-- Concatenation, in page order, of the normalized rows of n consecutive
pages starting at page start. -/
def pagesFetchedRows (env : Nat → List FetchOutcome) (start : Nat) : Nat → List StockMention
  | 0 => []
  | n + 1 => (pageRows env start).getD [] ++ pagesFetchedRows env (start + 1) n

/-- Sum of the lengths of the results lists of n consecutive pages starting
at page start. -/
def sumResultsLen (env : Nat → List FetchOutcome) (start : Nat) : Nat → Nat
  | 0 => 0
  | n + 1 => ((pageResults env start).getD []).length + sumResultsLen env (start + 1) n

/-- Environment in which page 1 reports a pages bound of 2 while every
later page reports a bound of 3; all results lists are empty. -/
def envC1 : Nat → List FetchOutcome := fun page =>
  if page == 1 then [FetchOutcome.ok (Json.obj [("results", Json.arr []), ("pages", Json.i 2)])]
  else [FetchOutcome.ok (Json.obj [("results", Json.arr []), ("pages", Json.i 3)])]

/-- A fully well-formed result row. -/
def goodRow : Json :=
  Json.obj [("rank", Json.i 2), ("ticker", Json.s "AMC"), ("name", Json.s "AMC Entertainment"),
    ("mentions", Json.i 5), ("upvotes", Json.i 7), ("rank_24h_ago", Json.null),
    ("mentions_24h_ago", Json.null)]

/-- Single-page environment whose first result row lacks the identity field
"rank" while the second row is fully well-formed. -/
def envC3 : Nat → List FetchOutcome := fun _ =>
  [FetchOutcome.ok (Json.obj [("results", Json.arr
    [Json.obj [("ticker", Json.s "GME"), ("name", Json.s "GameStop"), ("mentions", Json.i 3),
      ("upvotes", Json.i 4), ("rank_24h_ago", Json.null), ("mentions_24h_ago", Json.null)],
     goodRow]), ("pages", Json.i 1)])]

/-- Single-page environment whose first result row is fully well-formed
while the second row carries a rank but no ticker. -/
def envC3c : Nat → List FetchOutcome := fun _ =>
  [FetchOutcome.ok (Json.obj [("results", Json.arr
    [goodRow, Json.obj [("rank", Json.i 9)]]), ("pages", Json.i 1)])]

/-- Environment whose response object lacks the "results" key. -/
def envC4 : Nat → List FetchOutcome := fun _ =>
  [FetchOutcome.ok (Json.obj [("pages", Json.i 1)])]

/-- Environment whose response object lacks the "pages" key. -/
def envC4b : Nat → List FetchOutcome := fun _ =>
  [FetchOutcome.ok (Json.obj [("results", Json.arr [])])]

/-- The row of the specification's normalization example, with the identity
fields added: it carries mentions, upvotes and rank_24h_ago, but no
mentions_24h_ago entry. -/
def rowC5 : Json :=
  Json.obj [("rank", Json.i 1), ("ticker", Json.s "GME"), ("name", Json.s "GameStop"),
    ("mentions", Json.s "12"), ("upvotes", Json.null), ("rank_24h_ago", Json.s "abc")]

/-- The same row with a mentions_24h_ago entry added. -/
def rowC5b : Json :=
  Json.obj [("rank", Json.i 1), ("ticker", Json.s "GME"), ("name", Json.s "GameStop"),
    ("mentions", Json.s "12"), ("upvotes", Json.null), ("rank_24h_ago", Json.s "abc"),
    ("mentions_24h_ago", Json.null)]

/-- A row whose mentions value is the numeric string "-5" and whose upvotes
value is the number -3. -/
def rowC8 : Json :=
  Json.obj [("rank", Json.i 1), ("ticker", Json.s "GME"), ("name", Json.s "GameStop"),
    ("mentions", Json.s "-5"), ("upvotes", Json.i (-3)), ("rank_24h_ago", Json.null),
    ("mentions_24h_ago", Json.null)]

/-- Key-value list of a row whose numeric sources are non-negative or
unparsable. -/
def kvsC8b : List (String × Json) :=
  [("rank", Json.i 1), ("ticker", Json.s "GME"), ("name", Json.s "GameStop"),
    ("mentions", Json.s "7"), ("upvotes", Json.null), ("rank_24h_ago", Json.null),
    ("mentions_24h_ago", Json.null)]

/-- Single-page environment with one well-formed row. -/
def envC6 : Nat → List FetchOutcome := fun _ =>
  [FetchOutcome.ok (Json.obj [("results", Json.arr
    [Json.obj [("rank", Json.i 1), ("ticker", Json.s "A"), ("name", Json.s "B"),
      ("mentions", Json.i 2), ("upvotes", Json.null), ("rank_24h_ago", Json.null),
      ("mentions_24h_ago", Json.null)]]), ("pages", Json.i 1)])]

/-- The StockMention produced from the single row of envC6. -/
def mC6 : StockMention :=
  StockMention.mk (Json.i 1) (Json.s "A") (Json.s "B") 2 0 none none

/-- Single-page environment with an empty results list and pages equal 1. -/
def envC6e : Nat → List FetchOutcome := fun _ =>
  [FetchOutcome.ok (Json.obj [("results", Json.arr []), ("pages", Json.i 1)])]

/-- Environment whose first attempt for every page fails with an invalid
JSON body while a retry would have succeeded. -/
def envC7w : Nat → List FetchOutcome := fun _ =>
  [FetchOutcome.fail Cause.badJson, FetchOutcome.ok Json.null]

/-- Helper: orZero yields a non-negative integer whenever the underlying
option cannot hold a negative integer. -/
theorem orZero_nonneg (o : Option Int) (h : ∀ p : Int, o = some p → 0 ≤ p) :
    0 ≤ orZero o := by
  cases o with
  | none => simp [orZero]
  | some p =>
    have hp := h p rfl
    simp only [orZero]
    split
    · exact le_refl 0
    · exact hp

/-- C2 counterexample: with rate limit 1, the first request is issued at
the marker instant 100 and ends at 105; the second call enters the wait at
105, sleeps for 0 seconds and issues its request at 105, so the spacing
measured from the end of the previous request to the start of the next is
0, below the configured minimum interval of 1. -/
theorem c2_counterexample :
    sleepDuration (rateLimitWait (initClient 1) 100) 105 = 0 ∧
    ¬ ((1 : Rat) ≤ 105 - 105) := by
  constructor
  · norm_num [sleepDuration, rateLimitWait, initClient]
  · norm_num

/-- C2 (amended): consecutive get_mentions calls on one client are spaced
by at least the configured rate limit measured start-to-start: the marker
is set by _rate_limit_wait immediately before each request is issued
(success or failure of the attempt is irrelevant, since the update precedes
the attempt), and the next request starts only once at least rate_limit has
elapsed since that marker. Here t1 and t2 are the clock readings of the
first call (entry, and after its sleep: its request starts at t2), and t1b,
t2b those of the second call. -/
theorem c2_min_spacing (r marker0 t1 t2 t1b t2b : Rat)
    (hr : 0 ≤ r)
    (h1 : t1 + sleepDuration (Client.mk r marker0) t1 ≤ t2)
    (h2 : t2 ≤ t1b)
    (h3 : t1b + sleepDuration (rateLimitWait (Client.mk r marker0) t2) t1b ≤ t2b) :
    t2 + r ≤ t2b := by
  simp only [rateLimitWait, sleepDuration] at h3
  split at h3
  · linarith
  · next hc =>
    rw [not_lt] at hc
    linarith

/-- C2 witness: a concrete valid two-call trace with rate limit 1. -/
theorem c2_witness : (1 : Rat) + 1 ≤ 2 := by
  have h := c2_min_spacing 1 0 0 1 1 2 (by norm_num)
    (by norm_num [sleepDuration]) (by norm_num)
    (by norm_num [sleepDuration, rateLimitWait])
  linarith

/-- C3 counterexample: on a page whose first row lacks "rank", the whole
get_all_mentions call fails with KeyError "rank", even though the second
row of the same page is fully well-formed and normalizable on its own; no
row of the page is returned. -/
theorem c3_counterexample :
    getAllMentions envC3 3 = some (Except.error (Err.keyError "rank")) ∧
    normalizeRow goodRow = Except.ok (StockMention.mk (Json.i 2) (Json.s "AMC")
      (Json.s "AMC Entertainment") 5 7 none none) :=
  ⟨rfl, rfl⟩

/-- Helper: the list comprehension converts rows left to right, so when
the rows of a prefix all normalize and the next row raises, that exception
is the comprehension's result, whatever rows follow. -/
theorem mapRows_append_error : ∀ (pre : List Json) (pms : List StockMention)
    (r : Json) (rest : List Json) (e : Err),
    mapRows pre = Except.ok pms → normalizeRow r = Except.error e →
    mapRows (pre ++ r :: rest) = Except.error e := by
  intro pre
  induction pre with
  | nil =>
    intro pms r rest e hpre hr
    simp [mapRows, hr]
  | cons a pre2 ih =>
    intro pms r rest e hpre hr
    rw [List.cons_append]
    simp only [mapRows] at hpre ⊢
    cases hna : normalizeRow a with
    | error e2 => rw [hna] at hpre; simp at hpre
    | ok m =>
      rw [hna] at hpre
      dsimp only [] at hpre ⊢
      cases hmp : mapRows pre2 with
      | error e2 => rw [hmp] at hpre; simp at hpre
      | ok pms2 =>
        rw [ih pms2 r rest e hmp hr]

/-- C3 (amended): a result row missing any of the identity fields rank,
ticker or name, at any position in the page (once the rows before it
normalize — Python raises the first failure), is not dropped individually:
the KeyError raised while building its StockMention (naming the first
missing key in keyword order) propagates and makes the entire
get_all_mentions call fail, discarding the rest of the page. -/
theorem c3_missing_identity_aborts (env : Nat → List FetchOutcome) (fuel : Nat)
    (kvs rkvs : List (String × Json)) (pre rest : List Json)
    (pms : List StockMention)
    (hfuel : 1 ≤ fuel)
    (h1 : env 1 = [FetchOutcome.ok (Json.obj kvs)])
    (h2 : objGet kvs "results" = some (Json.arr (pre ++ Json.obj rkvs :: rest)))
    (hpre : mapRows pre = Except.ok pms) :
    (objGet rkvs "rank" = none →
      getAllMentions env fuel = some (Except.error (Err.keyError "rank"))) ∧
    (∀ vr, objGet rkvs "rank" = some vr → objGet rkvs "ticker" = none →
      getAllMentions env fuel = some (Except.error (Err.keyError "ticker"))) ∧
    (∀ vr vt, objGet rkvs "rank" = some vr → objGet rkvs "ticker" = some vt →
      objGet rkvs "name" = none →
      getAllMentions env fuel = some (Except.error (Err.keyError "name"))) := by
  obtain ⟨f, rfl⟩ : ∃ f, fuel = f + 1 := ⟨fuel - 1, by omega⟩
  have hgm : getMentions env 1 = Except.ok (Json.obj kvs) := by
    simp [getMentions, h1, attemptOutcome]
  refine ⟨?_, ?_, ?_⟩
  · intro hrank
    have hnr : normalizeRow (Json.obj rkvs) = Except.error (Err.keyError "rank") := by
      simp [normalizeRow, pyGetItem, hrank]
    have hrows := mapRows_append_error pre pms (Json.obj rkvs) rest _ hpre hnr
    have hpp : processPage (Json.obj kvs) = Except.error (Err.keyError "rank") := by
      simp [processPage, pyGetItem, h2, pyIter, hrows]
    simp [getAllMentions, getAllMentionsAux, hgm, hpp]
  · intro vr hvr htick
    have hnr : normalizeRow (Json.obj rkvs) = Except.error (Err.keyError "ticker") := by
      simp [normalizeRow, pyGetItem, hvr, htick]
    have hrows := mapRows_append_error pre pms (Json.obj rkvs) rest _ hpre hnr
    have hpp : processPage (Json.obj kvs) = Except.error (Err.keyError "ticker") := by
      simp [processPage, pyGetItem, h2, pyIter, hrows]
    simp [getAllMentions, getAllMentionsAux, hgm, hpp]
  · intro vr vt hvr hvt hname
    have hnr : normalizeRow (Json.obj rkvs) = Except.error (Err.keyError "name") := by
      simp [normalizeRow, pyGetItem, hvr, hvt, hname]
    have hrows := mapRows_append_error pre pms (Json.obj rkvs) rest _ hpre hnr
    have hpp : processPage (Json.obj kvs) = Except.error (Err.keyError "name") := by
      simp [processPage, pyGetItem, h2, pyIter, hrows]
    simp [getAllMentions, getAllMentionsAux, hgm, hpp]

/-- C3 witness: a page whose well-formed first row is followed by a second
row that has a rank but no ticker; the whole call fails with KeyError
"ticker". -/
theorem c3_witness :
    getAllMentions envC3c 1 = some (Except.error (Err.keyError "ticker")) :=
  (c3_missing_identity_aborts envC3c 1
    [("results", Json.arr [goodRow, Json.obj [("rank", Json.i 9)]]), ("pages", Json.i 1)]
    [("rank", Json.i 9)] [goodRow] []
    [StockMention.mk (Json.i 2) (Json.s "AMC") (Json.s "AMC Entertainment") 5 7 none none]
    (le_refl 1) rfl rfl rfl).2.1 (Json.i 9) rfl rfl

/-- C4 counterexample: a response lacking the "results" key makes the call
fail with the KeyError dictionary-lookup crash, not with a distinct
MalformedResponse error kind — no such kind exists in the code, whose only
deliberately raised error is the fetch-failure wrapper. -/
theorem c4_counterexample :
    getAllMentions envC4 1 = some (Except.error (Err.keyError "results")) :=
  rfl

/-- C4 (amended): a response missing "results" (or, with an empty results
list, missing "pages") fails the whole call with a KeyError naming the
missing key; the code defines no MalformedResponse error kind. -/
theorem c4_missing_key_keyerror (env : Nat → List FetchOutcome) (fuel : Nat)
    (kvs : List (String × Json))
    (hfuel : 1 ≤ fuel) (h1 : env 1 = [FetchOutcome.ok (Json.obj kvs)]) :
    (objGet kvs "results" = none →
      getAllMentions env fuel = some (Except.error (Err.keyError "results"))) ∧
    (objGet kvs "results" = some (Json.arr []) → objGet kvs "pages" = none →
      getAllMentions env fuel = some (Except.error (Err.keyError "pages"))) := by
  obtain ⟨f, rfl⟩ : ∃ f, fuel = f + 1 := ⟨fuel - 1, by omega⟩
  have hgm : getMentions env 1 = Except.ok (Json.obj kvs) := by
    simp [getMentions, h1, attemptOutcome]
  constructor
  · intro hres
    have hpp : processPage (Json.obj kvs) = Except.error (Err.keyError "results") := by
      simp [processPage, pyGetItem, hres]
    simp [getAllMentions, getAllMentionsAux, hgm, hpp]
  · intro hres hpag
    have hpp : processPage (Json.obj kvs) = Except.ok [] := by
      simp [processPage, pyGetItem, hres, pyIter, mapRows]
    have hpg : pyGetItem (Json.obj kvs) "pages" = Except.error (Err.keyError "pages") := by
      simp [pyGetItem, hpag]
    simp [getAllMentions, getAllMentionsAux, hgm, hpp, hpg]

/-- C4 witness: a concrete response carrying results but no pages count. -/
theorem c4_witness :
    getAllMentions envC4b 1 = some (Except.error (Err.keyError "pages")) :=
  (c4_missing_key_keyerror envC4b 1 [("results", Json.arr [])] (le_refl 1) rfl).2 rfl rfl

/-- C5 counterexample: on the row of the specification's example (identity
fields added), normalization does not succeed — the row has no
mentions_24h_ago entry, so building the StockMention raises KeyError
"mentions_24h_ago" instead of yielding mentions=12, upvotes=0. -/
theorem c5_counterexample :
    normalizeRow rowC5 = Except.error (Err.keyError "mentions_24h_ago") :=
  rfl

/-- C5 (amended): when all seven keys are present, numeric coercion is per
the stated rule and never aborts the record: each of the four numeric
fields is _safe_int_convert of its source value, with mentions and upvotes
defaulting to 0 via `or 0`; on the example row extended with a
mentions_24h_ago entry, the result is mentions=12, upvotes=0 and both
twenty-four-hour fields unset. -/
theorem c5_numeric_coercion :
    (∀ mv uv rv wv : Json,
      normalizeRow (Json.obj [("rank", Json.i 1), ("ticker", Json.s "GME"),
        ("name", Json.s "GameStop"), ("mentions", mv), ("upvotes", uv),
        ("rank_24h_ago", rv), ("mentions_24h_ago", wv)]) =
        Except.ok (StockMention.mk (Json.i 1) (Json.s "GME") (Json.s "GameStop")
          (orZero (safeIntConvert mv)) (orZero (safeIntConvert uv))
          (safeIntConvert rv) (safeIntConvert wv))) ∧
    normalizeRow rowC5b = Except.ok (StockMention.mk (Json.i 1) (Json.s "GME")
      (Json.s "GameStop") 12 0 none none) := by
  constructor
  · intro mv uv rv wv
    rfl
  · rfl

/-- C5 witness: the general coercion rule applied at concrete values. -/
theorem c5_witness :
    normalizeRow (Json.obj [("rank", Json.i 1), ("ticker", Json.s "GME"),
      ("name", Json.s "GameStop"), ("mentions", Json.i 4), ("upvotes", Json.null),
      ("rank_24h_ago", Json.null), ("mentions_24h_ago", Json.null)]) =
      Except.ok (StockMention.mk (Json.i 1) (Json.s "GME") (Json.s "GameStop")
        4 0 none none) :=
  c5_numeric_coercion.1 (Json.i 4) Json.null Json.null Json.null

/-- C7: get_mentions issues a single attempt (later outcomes the
environment holds for the page — what retries would have returned — never
influence the result), succeeds with the parsed JSON body exactly when that
attempt succeeds, and otherwise fails with the single failure kind
fetchFailed carrying the underlying cause. -/
theorem c7_fetch_characterization (env : Nat → List FetchOutcome) (page : Nat) :
    (∀ j rest, env page = FetchOutcome.ok j :: rest →
      getMentions env page = Except.ok j) ∧
    (∀ c rest, env page = FetchOutcome.fail c :: rest →
      getMentions env page = Except.error (Err.fetchFailed c)) ∧
    (∀ e, getMentions env page = Except.error e → ∃ c, e = Err.fetchFailed c) := by
  refine ⟨?_, ?_, ?_⟩
  · intro j rest h
    simp [getMentions, h, attemptOutcome]
  · intro c rest h
    simp [getMentions, h, attemptOutcome]
  · intro e h
    unfold getMentions at h
    cases ho : (env page).headD (FetchOutcome.fail (Cause.transport "no response")) with
    | ok j =>
      rw [ho] at h
      simp [attemptOutcome] at h
    | fail c =>
      rw [ho] at h
      simp [attemptOutcome] at h
      exact ⟨c, h.symm⟩

/-- C7 witness: a failing first attempt is not retried even though a second
attempt would have succeeded. -/
theorem c7_witness :
    getMentions envC7w 1 = Except.error (Err.fetchFailed Cause.badJson) :=
  (c7_fetch_characterization envC7w 1).2.1 Cause.badJson [FetchOutcome.ok Json.null] rfl

/-- C8 counterexample: normalization passes parseable negative source
values straight through — the numeric string "-5" for mentions and the
number -3 for upvotes yield a StockMention with negative mentions and
upvotes, refuting unconditional non-negativity. -/
theorem c8_counterexample :
    normalizeRow rowC8 = Except.ok (StockMention.mk (Json.i 1) (Json.s "GME")
      (Json.s "GameStop") (-5) (-3) none none) ∧
    (-5 : Int) < 0 ∧ (-3 : Int) < 0 :=
  ⟨rfl, by norm_num, by norm_num⟩

/-- C8 (amended): mentions and upvotes are non-negative provided their
source values do not parse to negative integers (absent, null or unparsable
sources default to 0); a parseable negative source is returned unchanged. -/
theorem c8_conditional_nonneg (kvs : List (String × Json)) (m : StockMention)
    (hnorm : normalizeRow (Json.obj kvs) = Except.ok m)
    (hm : ∀ p : Int, safeIntConvert ((objGet kvs "mentions").getD Json.null) = some p → 0 ≤ p)
    (hu : ∀ p : Int, safeIntConvert ((objGet kvs "upvotes").getD Json.null) = some p → 0 ≤ p) :
    0 ≤ m.mentions ∧ 0 ≤ m.upvotes := by
  rcases h1 : objGet kvs "rank" with _ | v1
  · simp [normalizeRow, pyGetItem, h1] at hnorm
  rcases h2 : objGet kvs "ticker" with _ | v2
  · simp [normalizeRow, pyGetItem, h1, h2] at hnorm
  rcases h3 : objGet kvs "name" with _ | v3
  · simp [normalizeRow, pyGetItem, h1, h2, h3] at hnorm
  rcases h4 : objGet kvs "mentions" with _ | v4
  · simp [normalizeRow, pyGetItem, h1, h2, h3, h4] at hnorm
  rcases h5 : objGet kvs "upvotes" with _ | v5
  · simp [normalizeRow, pyGetItem, h1, h2, h3, h4, h5] at hnorm
  rcases h6 : objGet kvs "rank_24h_ago" with _ | v6
  · simp [normalizeRow, pyGetItem, h1, h2, h3, h4, h5, h6] at hnorm
  rcases h7 : objGet kvs "mentions_24h_ago" with _ | v7
  · simp [normalizeRow, pyGetItem, h1, h2, h3, h4, h5, h6, h7] at hnorm
  simp [normalizeRow, pyGetItem, h1, h2, h3, h4, h5, h6, h7] at hnorm
  subst hnorm
  constructor
  · apply orZero_nonneg
    rw [h4] at hm
    simpa using hm
  · apply orZero_nonneg
    rw [h5] at hu
    simpa using hu

/-- C8 witness: a record whose sources are non-negative or null. -/
theorem c8_witness :
    0 ≤ (StockMention.mk (Json.i 1) (Json.s "GME") (Json.s "GameStop")
      7 0 none none).mentions ∧
    0 ≤ (StockMention.mk (Json.i 1) (Json.s "GME") (Json.s "GameStop")
      7 0 none none).upvotes := by
  apply c8_conditional_nonneg kvsC8b
  · rfl
  · intro p hp
    rw [show safeIntConvert ((objGet kvsC8b "mentions").getD Json.null) = some 7 from rfl] at hp
    simp at hp
    omega
  · intro p hp
    rw [show safeIntConvert ((objGet kvsC8b "upvotes").getD Json.null) = none from rfl] at hp
    simp at hp

/-- C9: a freshly constructed client has its last-request-time marker at
epoch 0 (so constructing a new instance resets the pacing state), and the
first call performs no rate-limit wait whenever the configured rate limit
does not exceed the current wall-clock time since the epoch — which holds
for any realistic clock and configuration. -/
theorem c9_fresh_client (r t : Rat) (h : r ≤ t) :
    (initClient r).last_request_time = 0 ∧ sleepDuration (initClient r) t = 0 := by
  refine ⟨rfl, ?_⟩
  show (if t - 0 < r then r - (t - 0) else 0) = 0
  rw [if_neg]
  rw [sub_zero]
  exact not_lt.mpr h

/-- C9 witness: rate limit 1, first call at wall-clock time 5. -/
theorem c9_witness :
    (initClient 1).last_request_time = 0 ∧ sleepDuration (initClient 1) 5 = 0 :=
  c9_fresh_client 1 5 (by norm_num)

/-- C10: _safe_int_convert is total by construction and returns none
exactly when the value is null or Python int() conversion fails, otherwise
the converted integer; numeric strings are accepted, non-numeric strings,
lists and objects give none. -/
theorem c10_safe_int_total :
    (∀ v : Json, safeIntConvert v = none ↔ (v = Json.null ∨ pyInt v = none)) ∧
    (∀ v : Json, ∀ n : Int, safeIntConvert v = some n → pyInt v = some n) ∧
    safeIntConvert (Json.s "12") = some 12 ∧
    safeIntConvert (Json.s "abc") = none ∧
    safeIntConvert (Json.arr []) = none ∧
    safeIntConvert (Json.obj []) = none := by
  refine ⟨?_, ?_, rfl, rfl, rfl, rfl⟩
  · intro v
    cases v <;> simp [safeIntConvert, pyInt]
  · intro v n h
    cases v <;> simp_all [safeIntConvert]

/-- C10 witness: the numeric string "12" converts to the integer 12. -/
theorem c10_witness : pyInt (Json.s "12") = some 12 :=
  c10_safe_int_total.2.1 (Json.s "12") 12 rfl

/-- C1 counterexample: in envC1 the first page reports a pages bound of 2,
yet the sweep issues 3 requests — the loop re-reads the bound from every
page (page 2 reports 3), so the number of requests is not the bound
reported by the first page. -/
theorem c1_counterexample :
    pagesBound envC1 1 = some 2 ∧ getAllMentions envC1 10 = some (Except.ok ([], 3)) :=
  ⟨rfl, rfl⟩

/-- Helper: the length of a successful row conversion equals the number of
rows of the page. -/
theorem mapRows_length : ∀ (rows : List Json) (ms : List StockMention),
    mapRows rows = Except.ok ms → ms.length = rows.length := by
  intro rows
  induction rows with
  | nil =>
    intro ms h
    simp [mapRows] at h
    subst h
    rfl
  | cons r rest ih =>
    intro ms h
    simp only [mapRows] at h
    cases hnr : normalizeRow r with
    | error e => rw [hnr] at h; simp at h
    | ok m =>
      rw [hnr] at h
      cases hmr : mapRows rest with
      | error e => rw [hmr] at h; simp at h
      | ok ms2 =>
        rw [hmr] at h
        simp at h
        subst h
        have := ih ms2 hmr
        simp [List.length_cons, this]

/-- Helper: a page whose rows normalize successfully has a results list of
the same length. -/
theorem pageRows_length (env : Nat → List FetchOutcome) (i : Nat) (ms : List StockMention)
    (h : pageRows env i = some ms) :
    ∃ rows, pageResults env i = some rows ∧ ms.length = rows.length := by
  unfold pageRows at h
  cases hgm : getMentions env i with
  | error e => rw [hgm] at h; simp at h
  | ok data =>
    rw [hgm] at h
    dsimp only [] at h
    cases hpp : processPage data with
    | error e => rw [hpp] at h; simp at h
    | ok pm =>
      rw [hpp] at h
      simp at h
      subst h
      unfold processPage at hpp
      cases hr : pyGetItem data "results" with
      | error e => rw [hr] at hpp; simp at hpp
      | ok v =>
        rw [hr] at hpp
        dsimp only [] at hpp
        cases hit : pyIter v with
        | error e => rw [hit] at hpp; simp at hpp
        | ok rows =>
          rw [hit] at hpp
          simp at hpp
          refine ⟨rows, ?_, ?_⟩
          · simp [pageResults, hgm, hr, hit]
          · exact mapRows_length rows pm hpp

/-- Helper: the total number of records over a run of pages whose rows all
normalize equals the sum of the lengths of their results lists. -/
theorem pagesFetchedRows_length (env : Nat → List FetchOutcome) :
    ∀ (n start : Nat), (∀ k, k < n → (pageRows env (start + k)).isSome = true) →
    (pagesFetchedRows env start n).length = sumResultsLen env start n := by
  intro n
  induction n with
  | zero => intro start h; simp [pagesFetchedRows, sumResultsLen]
  | succ n2 ih =>
    intro start h
    have h0 : (pageRows env start).isSome = true := by
      simpa using h 0 (by omega)
    obtain ⟨msP, hmsP⟩ := Option.isSome_iff_exists.mp h0
    obtain ⟨rows, hrows, hlen⟩ := pageRows_length env start msP hmsP
    have ihr := ih (start + 1) (fun k hk => by
      have hs := h (k + 1) (by omega)
      rw [show start + (k + 1) = start + 1 + k by omega] at hs
      exact hs)
    simp only [pagesFetchedRows, sumResultsLen, hmsP, hrows, Option.getD_some,
      List.length_append]
    omega

/-- Helper: structure of a successful comparison `page >= data["pages"]`:
the pages value is an int (or a bool acting as 0 or 1), and the comparison
result reflects the order. -/
theorem pyGe_spec (n : Int) (v : Json) (bres : Bool)
    (h : pyGeIntJson n v = Except.ok bres) :
    ∃ p, pagesBoundVal v = some p ∧ (bres = true ↔ p ≤ n) := by
  cases v with
  | null => simp [pyGeIntJson] at h
  | b bb =>
    cases bb with
    | true =>
      simp [pyGeIntJson] at h
      subst h
      exact ⟨1, rfl, by simp⟩
    | false =>
      simp [pyGeIntJson] at h
      subst h
      exact ⟨0, rfl, by simp⟩
  | i m =>
    simp [pyGeIntJson] at h
    subst h
    exact ⟨m, rfl, by simp⟩
  | s str => simp [pyGeIntJson] at h
  | arr xs => simp [pyGeIntJson] at h
  | obj kvs => simp [pyGeIntJson] at h

/-- Helper: full characterization of a terminating, successful sweep of the
get_all_mentions loop started at an arbitrary page: some n ≥ 1 pages are
fetched, the request count grows by n, the accumulator is extended with the
normalized rows of the n pages in order, every fetched page has normalizable
rows, every page before the last compares strictly below its own reported
pages bound, and the last page reaches its own reported bound. -/
theorem getAllMentionsAux_ok (env : Nat → List FetchOutcome) :
    ∀ (fuel page reqs0 : Nat) (acc ms : List StockMention) (reqsF : Nat),
    getAllMentionsAux env fuel page acc reqs0 = some (Except.ok (ms, reqsF)) →
    ∃ n, 1 ≤ n ∧ reqsF = reqs0 + n ∧
      ms = acc ++ pagesFetchedRows env page n ∧
      (∀ k, k < n → (pageRows env (page + k)).isSome = true) ∧
      (∀ k, k + 1 < n → ∃ p, pagesBound env (page + k) = some p ∧
        ((page + k : Nat) : Int) < p) ∧
      (∃ p, pagesBound env (page + (n - 1)) = some p ∧
        p ≤ ((page + (n - 1) : Nat) : Int)) := by
  intro fuel
  induction fuel with
  | zero =>
    intro page reqs0 acc ms reqsF h
    simp [getAllMentionsAux] at h
  | succ f ih =>
    intro page reqs0 acc ms reqsF h
    simp only [getAllMentionsAux] at h
    cases hgm : getMentions env page with
    | error e => rw [hgm] at h; simp at h
    | ok data =>
      rw [hgm] at h
      dsimp only [] at h
      cases hpp : processPage data with
      | error e => rw [hpp] at h; simp at h
      | ok pm =>
        rw [hpp] at h
        dsimp only [] at h
        cases hpg : pyGetItem data "pages" with
        | error e => rw [hpg] at h; simp at h
        | ok pv =>
          rw [hpg] at h
          dsimp only [] at h
          cases hge : pyGeIntJson (page : Int) pv with
          | error e => rw [hge] at h; simp at h
          | ok bres =>
            rw [hge] at h
            have hpr : pageRows env page = some pm := by simp [pageRows, hgm, hpp]
            obtain ⟨p0, hp0, hiff⟩ := pyGe_spec (page : Int) pv bres hge
            have hpb : pagesBound env page = some p0 := by
              simp [pagesBound, hgm, hpg, hp0]
            cases bres with
            | true =>
              simp at h
              obtain ⟨hms, hreq⟩ := h
              refine ⟨1, le_refl 1, by omega, ?_, ?_, ?_, ?_⟩
              · rw [← hms]
                simp [pagesFetchedRows, hpr]
              · intro k hk
                have hk0 : k = 0 := by omega
                subst hk0
                simp [hpr]
              · intro k hk
                exact absurd hk (by omega)
              · refine ⟨p0, by simpa using hpb, ?_⟩
                have hple := hiff.mp rfl
                simpa using hple
            | false =>
              simp at h
              obtain ⟨n2, h1n, hreq, hms, hsome, hlt, hlast⟩ :=
                ih (page + 1) (reqs0 + 1) (acc ++ pm) ms reqsF h
              refine ⟨n2 + 1, by omega, by omega, ?_, ?_, ?_, ?_⟩
              · rw [hms]
                simp [pagesFetchedRows, hpr, List.append_assoc]
              · intro k hk
                cases k with
                | zero => simpa using congrArg Option.isSome hpr
                | succ k2 =>
                  have hs := hsome k2 (by omega)
                  rw [show page + (k2 + 1) = page + 1 + k2 by omega]
                  exact hs
              · intro k hk
                cases k with
                | zero =>
                  refine ⟨p0, by simpa using hpb, ?_⟩
                  have hnot : ¬ (p0 ≤ (page : Int)) := by
                    intro hle
                    exact absurd (hiff.mpr hle) (by simp)
                  have hgt := not_le.mp hnot
                  simpa using hgt
                | succ k2 =>
                  have hl := hlt k2 (by omega)
                  rw [show page + (k2 + 1) = page + 1 + k2 by omega]
                  exact hl
              · rw [show page + (n2 + 1 - 1) = page + 1 + (n2 - 1) by omega]
                exact hlast

/-- C1 (amended): a successful sweep makes at least one request, every page
before the last compares strictly below the pages bound reported by that
page itself (the bound is re-read on every page, not fixed from page 1),
the last page reaches its own reported bound, and when page 1 reports a
bound of at most 1 exactly one request is made. -/
theorem c1_bound_reread (env : Nat → List FetchOutcome) (fuel : Nat)
    (ms : List StockMention) (reqs : Nat)
    (h : getAllMentions env fuel = some (Except.ok (ms, reqs))) :
    1 ≤ reqs ∧
    (∀ k, k + 1 < reqs → ∃ p, pagesBound env (1 + k) = some p ∧
      ((1 + k : Nat) : Int) < p) ∧
    (∃ p, pagesBound env reqs = some p ∧ p ≤ (reqs : Int)) ∧
    (∀ p, pagesBound env 1 = some p → p ≤ 1 → reqs = 1) := by
  obtain ⟨n, h1n, hreq, hms, hsome, hlt, hlast⟩ :=
    getAllMentionsAux_ok env fuel 1 0 [] ms reqs h
  have hn : n = reqs := by omega
  subst hn
  refine ⟨h1n, hlt, ?_, ?_⟩
  · rw [show 1 + (n - 1) = n by omega] at hlast
    exact hlast
  · intro p hp hple
    by_contra hne
    obtain ⟨p2, hp2, hlt2⟩ := hlt 0 (by omega)
    simp only [Nat.add_zero] at hp2 hlt2
    rw [hp] at hp2
    simp at hp2
    push_cast at hlt2
    omega

/-- C1 witness: a sweep through envC1, whose page 1 reports bound 2, makes
3 requests and in particular at least one. -/
theorem c1_witness :
    getAllMentions envC1 10 = some (Except.ok ([], 3)) ∧ 1 ≤ 3 :=
  ⟨rfl, (c1_bound_reread envC1 10 [] 3 rfl).1⟩

/-- C6: a successful sweep returns the concatenation, in page order then
in-page order, of the normalized rows of the fetched pages, whose total
length is the sum of the lengths of the fetched pages' results lists; and
on a single page with an empty results list and pages equal 1 the sweep
returns the empty sequence after exactly one request. -/
theorem c6_sweep_shape (env : Nat → List FetchOutcome) (fuel : Nat)
    (ms : List StockMention) (reqs : Nat)
    (h : getAllMentions env fuel = some (Except.ok (ms, reqs))) :
    (1 ≤ reqs ∧ ms = pagesFetchedRows env 1 reqs ∧
      ms.length = sumResultsLen env 1 reqs ∧
      (∀ k, k < reqs → (pageRows env (1 + k)).isSome = true)) ∧
    (∀ env2 fuel2, 1 ≤ fuel2 →
      env2 1 = [FetchOutcome.ok (Json.obj [("results", Json.arr []), ("pages", Json.i 1)])] →
      getAllMentions env2 fuel2 = some (Except.ok ([], 1))) := by
  obtain ⟨n, h1n, hreq, hms, hsome, hlt, hlast⟩ :=
    getAllMentionsAux_ok env fuel 1 0 [] ms reqs h
  have hn : n = reqs := by omega
  subst hn
  constructor
  · refine ⟨h1n, by simpa using hms, ?_, hsome⟩
    have hlen := pagesFetchedRows_length env n 1 hsome
    rw [hms]
    simpa using hlen
  · intro env2 fuel2 hf h2
    obtain ⟨f, rfl⟩ : ∃ f, fuel2 = f + 1 := ⟨fuel2 - 1, by omega⟩
    have hgm : getMentions env2 1 =
        Except.ok (Json.obj [("results", Json.arr []), ("pages", Json.i 1)]) := by
      simp [getMentions, h2, attemptOutcome]
    simp only [getAllMentions, getAllMentionsAux]
    rw [hgm]
    rfl

/-- C6 witness: the one-page one-row sweep of envC6 discharges the premise,
and the empty single-page response yields the empty sequence after one
request. -/
theorem c6_witness : getAllMentions envC6e 1 = some (Except.ok ([], 1)) :=
  (c6_sweep_shape envC6 1 [mC6] 1 rfl).2 envC6e 1 (le_refl 1) rfl

end ApeWis
